import Mathlib

/-!
# Feedback System — formal model of `src/server.js`

A shallow embedding of the Express/MySQL feedback backend.  The relational
store is modelled as a list of rows plus an auto-increment counter; every
route handler of `server.js` becomes a pure Lean function from a request and
a store to a typed outcome and the resulting store.  JavaScript truthiness
on request fields is modelled explicitly (`Option` values with `none` for an
absent/`undefined` field, and empty string / zero counting as falsy), and the
SQL issued by the handlers (`WHERE` filters, `ORDER BY submission_date DESC`,
`LIMIT`/`OFFSET`, `LIKE` patterns, `COUNT`, `AVG`) is given its standard
semantics over the row list.
-/

namespace FeedbackSystem

/-- A row of the `feedback` table.  `subject_course` and `detailed_feedback`
are nullable columns (`none` = SQL `NULL`); `submission_date` is an abstract
timestamp (larger = more recent). -/
structure Feedback where
  id : Nat
  name : String
  email : String
  feedback_type : String
  subject_course : Option String
  overall_rating : Int
  detailed_feedback : Option String
  submission_date : Nat
  deriving Repr, DecidableEq

/-- The database state: the `feedback` table rows together with the
auto-increment counter that generates `insertId`. -/
structure Store where
  rows : List Feedback
  nextId : Nat
  deriving Repr, DecidableEq

/-- JavaScript truthiness of an optional string field: `undefined` and the
empty string are falsy. -/
def truthyStr : Option String → Bool
  | none => false
  | some s => !(s == "")

/-- JavaScript truthiness of an optional numeric field: `undefined` and `0`
are falsy. -/
def truthyInt : Option Int → Bool
  | none => false
  | some n => !(n == 0)

/-- The JSON body of a `POST /api/feedback` request, as destructured by the
handler.  `none` models an absent (`undefined`) property. -/
structure ReqBody where
  name : Option String
  email : Option String
  feedback_type : Option String
  subject_course : Option String
  overall_rating : Option Int
  detailed_feedback : Option String
  deriving Repr, DecidableEq

/-- Outcome of `POST /api/feedback`. -/
inductive SubmitOutcome where
  /-- 400 `'Missing required fields'`. -/
  | missingFields
  /-- 400 `'Rating must be between 1 and 5'`. -/
  | ratingOutOfRange
  /-- 201 with the generated `insertId`. -/
  | created (id : Nat)
  deriving Repr, DecidableEq

/-- `POST /api/feedback` (server.js lines 62–92): validates required fields by
truthiness, then the rating range, then runs the parameterized `INSERT`, where
falsy optional fields are replaced by `NULL` (`subject_course || null`,
`detailed_feedback || null`).  `now` is the `CURRENT_TIMESTAMP` the schema
assigns to `submission_date` at insertion. -/
def submitFeedback (b : ReqBody) (now : Nat) (st : Store) : SubmitOutcome × Store :=
  if !(truthyStr b.name && truthyStr b.email && truthyStr b.feedback_type &&
       truthyInt b.overall_rating) then
    (.missingFields, st)
  else if b.overall_rating.getD 0 < 1 || b.overall_rating.getD 0 > 5 then
    (.ratingOutOfRange, st)
  else
    let row : Feedback :=
      { id := st.nextId
        name := b.name.getD ""
        email := b.email.getD ""
        feedback_type := b.feedback_type.getD ""
        subject_course := if truthyStr b.subject_course then b.subject_course else none
        overall_rating := b.overall_rating.getD 0
        detailed_feedback := if truthyStr b.detailed_feedback then b.detailed_feedback else none
        submission_date := now }
    (.created st.nextId, { rows := st.rows ++ [row], nextId := st.nextId + 1 })

/-- Outcome of `GET /api/feedback/:id`. -/
inductive GetOutcome where
  /-- 404 `'Feedback not found'`. -/
  | notFound
  /-- 200 with the row. -/
  | found (f : Feedback)
  deriving Repr, DecidableEq

/-- `GET /api/feedback/:id` (server.js lines 145–160): `SELECT * FROM feedback
WHERE id = ?`; 404 when no row matches, otherwise the first matching row. -/
def getById (id : Nat) (st : Store) : GetOutcome :=
  match (st.rows.filter (fun f => f.id == id)).head? with
  | none => .notFound
  | some f => .found f

/-- The JSON body of a `PUT /api/feedback/:id` request.  All six destructured
properties are bound as SQL parameters, so a well-formed request supplies each
of them (optional columns may be JSON `null`, modelled by `none`). -/
structure UpdateBody where
  name : String
  email : String
  feedback_type : String
  subject_course : Option String
  overall_rating : Int
  detailed_feedback : Option String
  deriving Repr, DecidableEq

/-- Outcome of `PUT /api/feedback/:id`. -/
inductive UpdateOutcome where
  /-- 404 `'Feedback not found'` (`affectedRows === 0`). -/
  | notFound
  /-- 200 `'Feedback updated successfully'`. -/
  | updated
  deriving Repr, DecidableEq

/-- `PUT /api/feedback/:id` (server.js lines 163–188): an unconditional
full-field `UPDATE ... WHERE id = ?` with no validation of any field; 404 when
no row matches.  (`updated_at` is not part of the modelled row state.) -/
def updateFeedback (id : Nat) (b : UpdateBody) (st : Store) : UpdateOutcome × Store :=
  if (st.rows.filter (fun f => f.id == id)).length == 0 then
    (.notFound, st)
  else
    (.updated,
      { st with rows := st.rows.map (fun f =>
          if f.id == id then
            { f with
              name := b.name
              email := b.email
              feedback_type := b.feedback_type
              subject_course := b.subject_course
              overall_rating := b.overall_rating
              detailed_feedback := b.detailed_feedback }
          else f) })

/-- Outcome of `DELETE /api/feedback/:id`. -/
inductive DeleteOutcome where
  /-- 401: no (truthy) token in the `Authorization` header. -/
  | unauthorized
  /-- 403: `jwt.verify` rejected the token. -/
  | forbidden
  /-- 404 `'Feedback not found'` (`affectedRows === 0`). -/
  | notFound
  /-- 200 `'Feedback deleted successfully'`. -/
  | deleted
  deriving Repr, DecidableEq

/-- JavaScript `String.prototype.split` with a one-character separator, on
character lists. -/
def splitOnChar (sep : Char) : List Char → List (List Char)
  | [] => [[]]
  | c :: t =>
    let rest := splitOnChar sep t
    if c == sep then [] :: rest
    else
      match rest with
      | [] => [[c]]
      | h :: t' => (c :: h) :: t'

/-- The token extraction of `authenticateToken` (server.js lines 44–46):
`authHeader && authHeader.split(' ')[1]` — the second space-separated word of
the `Authorization` header, when the header is present and has one. -/
def extractToken (authHeader : Option String) : Option String :=
  authHeader.bind (fun h => ((splitOnChar ' ' h.toList).get? 1).map String.mk)

/-- `DELETE /api/feedback/:id` behind `authenticateToken` (server.js lines
44–57 and 191–206).  `verify` abstracts `jwt.verify` against the secret:
`verify tok = true` iff the token is valid.  A falsy extracted token gives
401, an invalid one 403; otherwise `DELETE FROM feedback WHERE id = ?`, with
404 when `affectedRows === 0`. -/
def deleteFeedback (authHeader : Option String) (verify : String → Bool)
    (id : Nat) (st : Store) : DeleteOutcome × Store :=
  match extractToken authHeader with
  | none => (.unauthorized, st)
  | some tok =>
    if tok == "" then (.unauthorized, st)
    else if !(verify tok) then (.forbidden, st)
    else if (st.rows.filter (fun f => f.id == id)).length == 0 then
      (.notFound, st)
    else
      (.deleted, { st with rows := st.rows.filter (fun f => !(f.id == id)) })

/-- The `ORDER BY submission_date DESC` ordering: `a` comes no later than `b`
in the output when `a`'s timestamp is at least `b`'s. -/
def dateDesc (a b : Feedback) : Prop := b.submission_date ≤ a.submission_date

instance : DecidableRel dateDesc :=
  fun a b => Nat.decLe b.submission_date a.submission_date

instance : IsTotal Feedback dateDesc :=
  ⟨fun a b => Nat.le_total b.submission_date a.submission_date⟩

instance : IsTrans Feedback dateDesc :=
  ⟨fun _ _ _ hab hbc => Nat.le_trans hbc hab⟩

/-- The optional `AND feedback_type = ?` clause: appended only when the `type`
query parameter is truthy. -/
def typeCond (t : Option String) (f : Feedback) : Bool :=
  if truthyStr t then f.feedback_type == t.getD "" else true

/-- The optional `AND overall_rating = ?` clause: appended only when the
`rating` query parameter is present (`none` models an absent or falsy
parameter; the bound value is `parseInt(rating)`). -/
def ratingCond (r : Option Int) (f : Feedback) : Bool :=
  match r with
  | some n => f.overall_rating == n
  | none => true

/-- Response of `GET /api/feedback`. -/
structure ListResult where
  feedback : List Feedback
  total : Nat
  limit : Nat
  offset : Nat
  deriving Repr, DecidableEq

/-- `GET /api/feedback` (server.js lines 95–142): `SELECT * FROM feedback
WHERE 1=1` plus the optional type/rating clauses, `ORDER BY submission_date
DESC LIMIT ? OFFSET ?`, together with a count query built from the same
optional clauses. -/
def listFeedback (t : Option String) (r : Option Int) (limit offset : Nat)
    (st : Store) : ListResult :=
  let page :=
    ((List.insertionSort dateDesc
        (st.rows.filter (fun f => typeCond t f && ratingCond r f))).drop offset).take limit
  let total := (st.rows.filter (fun f => typeCond t f && ratingCond r f)).length
  { feedback := page, total := total, limit := limit, offset := offset }

/-- The query-parameter layer of `GET /api/feedback`:
`const { type, rating, limit = 50, offset = 0 } = req.query`. -/
def listHandler (t : Option String) (r : Option Int)
    (limitParam offsetParam : Option Nat) (st : Store) : ListResult :=
  listFeedback t r (limitParam.getD 50) (offsetParam.getD 0) st

/-- MySQL `LIKE` pattern matching, case-insensitive (the default `_ci`
collation): `%` matches any sequence of characters, `_` matches exactly one
character, the default escape character `\` makes the following pattern
character match literally (so `\%` is a literal `%`, `\_` a literal `_`,
`\\` a literal backslash, and `\x` matches `x` — the escape is stripped),
and any other pattern character matches itself up to case.  The `%` case
matches the rest of the pattern against some suffix of the string.  A lone
trailing escape matches a literal backslash; that case cannot arise from the
handler, whose patterns always end in `%`. -/
def likeMatch : List Char → List Char → Bool
  | [], s => s.isEmpty
  | p :: ps, s =>
    if p == '%' then s.tails.any (fun t => likeMatch ps t)
    else if p == '_' then
      match s with
      | [] => false
      | _ :: t => likeMatch ps t
    else if p == '\\' then
      match ps with
      | [] =>
        match s with
        | [c] => c == '\\'
        | _ => false
      | e :: ps' =>
        match s with
        | [] => false
        | c :: t => (e.toLower == c.toLower) && likeMatch ps' t
    else
      match s with
      | [] => false
      | c :: t => (p.toLower == c.toLower) && likeMatch ps t

/-- A nullable column against a `LIKE` pattern: SQL `NULL LIKE p` is not
true. -/
def likeOpt (pat : List Char) : Option String → Bool
  | none => false
  | some s => likeMatch pat s.toList

/-- The search-row predicate built by `GET /api/search` (server.js lines
275–291): the three `LIKE ?` disjuncts over the wildcard-wrapped trimmed
query (`%${q.trim()}%`), conjoined with the optional type/rating clauses. -/
def searchMatch (term : String) (t : Option String) (r : Option Int)
    (f : Feedback) : Bool :=
  let pat := ("%" ++ term ++ "%").toList
  (likeOpt pat f.detailed_feedback || likeOpt pat f.subject_course ||
     likeMatch pat f.name.toList) &&
  typeCond t f && ratingCond r f

/-- Outcome of `GET /api/search`. -/
inductive SearchOutcome where
  /-- 400 `'Search query must be at least 2 characters'`. -/
  | invalidQuery
  /-- 200 with the result rows. -/
  | results (rows : List Feedback)
  deriving Repr, DecidableEq

/-- JavaScript's whitespace characters as far as this model needs them. -/
def isSpaceChar (c : Char) : Bool := c == ' ' || c == '\t' || c == '\n' || c == '\r'

/-- JavaScript `String.prototype.trim`: strip whitespace from both ends. -/
def trimString (s : String) : String :=
  String.mk (((s.toList.dropWhile isSpaceChar).reverse.dropWhile isSpaceChar).reverse)

/-- `GET /api/search` (server.js lines 267–295): rejects a falsy `q` or a
trimmed query shorter than 2 characters; otherwise filters by
`searchMatch`, orders by `submission_date DESC` and caps at `LIMIT 50`. -/
def searchFeedback (q t : Option String) (r : Option Int) (st : Store) :
    SearchOutcome :=
  if !(truthyStr q) || (trimString (q.getD "")).length < 2 then .invalidQuery
  else
    let term := trimString (q.getD "")
    .results
      ((List.insertionSort dateDesc (st.rows.filter (searchMatch term t r))).take 50)

/-- SQL `AVG(overall_rating)` over the whole table: `NULL` when the table is
empty, otherwise the exact rational mean. -/
def avgRating (st : Store) : Option ℚ :=
  if st.rows.isEmpty then none
  else some ((st.rows.map (fun f => (f.overall_rating : ℚ))).sum / (st.rows.length : ℚ))

/-- JavaScript `x.toFixed(1)` on an exact rational value: round half-up to
one decimal place and render with exactly one digit after the point. -/
def toFixed1 (q : ℚ) : String :=
  let n : ℤ := ⌊q * 10 + 1 / 2⌋
  if n < 0 then "-" ++ toString ((-n) / 10) ++ "." ++ toString ((-n) % 10)
  else toString (n / 10) ++ "." ++ toString (n % 10)

/-- The `average_rating` field of `GET /api/analytics` (server.js lines
215 and 254): `parseFloat(avgResult[0].average || 0).toFixed(1)` — the SQL
average with `NULL` coalesced to `0` by `||`, formatted to one decimal. -/
def analyticsAverageRating (st : Store) : String :=
  toFixed1 ((avgRating st).getD 0)

/-- Case-insensitive "is a prefix of" on character lists. -/
def isPrefixCI : List Char → List Char → Bool
  | [], _ => true
  | _ :: _, [] => false
  | a :: as, b :: bs => (a.toLower == b.toLower) && isPrefixCI as bs

/-- Case-insensitive "is a substring of" on character lists: some suffix of
the haystack starts with the needle, up to case. -/
def containsCI : List Char → List Char → Bool
  | needle, [] => needle.isEmpty
  | needle, c :: hay' => isPrefixCI needle (c :: hay') || containsCI needle hay'

/-- The search-match predicate in the specification's words: the trimmed
query occurs as a case-insensitive substring of `detailed_feedback`,
`subject_course`, or `name` (a `NULL` field contains nothing), restricted by
the optional type and rating equality filters. -/
def specSearchMatch (term : String) (t : Option String) (r : Option Int)
    (f : Feedback) : Bool :=
  ((match f.detailed_feedback with
    | none => false
    | some s => containsCI term.toList s.toList) ||
   (match f.subject_course with
    | none => false
    | some s => containsCI term.toList s.toList) ||
   containsCI term.toList f.name.toList) &&
  typeCond t f && ratingCond r f

/-- A string free of SQL `LIKE` metacharacters: no `%`, no `_`, and no
escape character `\`. -/
def noWildcards (s : String) : Bool :=
  s.toList.all (fun c => !(c == '%') && !(c == '_') && !(c == '\\'))

/-- The data-model invariant on one row: `overall_rating ∈ [1,5]`. -/
def ratingInRange (f : Feedback) : Prop :=
  1 ≤ f.overall_rating ∧ f.overall_rating ≤ 5

instance (f : Feedback) : Decidable (ratingInRange f) :=
  inferInstanceAs (Decidable (_ ∧ _))

/-- The data-model invariant on the store: every row's rating is in
`[1,5]`. -/
def storeRatingsOk (st : Store) : Prop :=
  ∀ f ∈ st.rows, ratingInRange f

instance (st : Store) : Decidable (storeRatingsOk st) :=
  inferInstanceAs (Decidable (∀ f ∈ st.rows, _))

/-- A submit outcome that is a 400 `ValidationError` (either message). -/
def isValidationError : SubmitOutcome → Bool
  | .missingFields => true
  | .ratingOutOfRange => true
  | .created _ => false

/-- A required field of the submit body is *missing*, read literally:
the property is absent from the request. -/
def fieldMissing (b : ReqBody) : Prop :=
  b.name = none ∨ b.email = none ∨ b.feedback_type = none ∨ b.overall_rating = none

instance (b : ReqBody) : Decidable (fieldMissing b) :=
  inferInstanceAs (Decidable (_ ∨ _ ∨ _ ∨ _))

/-- A required field of the submit body is falsy under JavaScript truthiness:
absent, the empty string, or the number `0`. -/
def fieldFalsy (b : ReqBody) : Prop :=
  truthyStr b.name = false ∨ truthyStr b.email = false ∨
    truthyStr b.feedback_type = false ∨ truthyInt b.overall_rating = false

instance (b : ReqBody) : Decidable (fieldFalsy b) :=
  inferInstanceAs (Decidable (_ ∨ _ ∨ _ ∨ _))

/-- The supplied rating lies outside `[1,5]` (vacuously false when the
rating is absent, which `fieldMissing`/`fieldFalsy` already covers). -/
def ratingOutside (b : ReqBody) : Prop :=
  ∃ n, b.overall_rating = some n ∧ (n < 1 ∨ 5 < n)

instance (b : ReqBody) : Decidable (ratingOutside b) := by
  unfold ratingOutside
  cases h : b.overall_rating with
  | none => exact .isFalse (by simp [h])
  | some n => exact decidable_of_iff (n < 1 ∨ 5 < n) (by simp [h])

/-- Claim C2 read literally at one request: a missing required field or an
out-of-range rating fails with a `ValidationError` and leaves the store
unchanged, and otherwise the record is persisted (appended to the table) and
the generated id is returned. -/
def submitClaimLiteral (b : ReqBody) (now : Nat) (st : Store) : Prop :=
  (fieldMissing b ∨ ratingOutside b →
    isValidationError (submitFeedback b now st).1 = true ∧
      (submitFeedback b now st).2 = st) ∧
  (¬(fieldMissing b ∨ ratingOutside b) →
    (submitFeedback b now st).1 = .created st.nextId ∧
      ∃ row, (submitFeedback b now st).2.rows = st.rows ++ [row])

instance (b : ReqBody) (now : Nat) (st : Store) :
    Decidable (submitClaimLiteral b now st) := by
  unfold submitClaimLiteral
  have : Decidable (∃ row, (submitFeedback b now st).2.rows = st.rows ++ [row]) := by
    refine decidable_of_iff ((submitFeedback b now st).2.rows ≠ [] ∧
      (submitFeedback b now st).2.rows.dropLast = st.rows) ?_
    constructor
    · rintro ⟨hne, hd⟩
      exact ⟨(submitFeedback b now st).2.rows.getLast hne,
        by rw [← hd]; exact (List.dropLast_append_getLast hne).symm⟩
    · rintro ⟨row, hrow⟩
      simp [hrow]
  infer_instance

/-- The `average_rating` computation in the specification's words: `"0.0"`
when zero feedback rows exist, otherwise the mean of all `overall_rating`
values rounded to one decimal place. -/
def specAverageRating (st : Store) : String :=
  if st.rows.length = 0 then "0.0"
  else toFixed1 ((st.rows.map (fun f => (f.overall_rating : ℚ))).sum / (st.rows.length : ℚ))

/-! ### Concrete fixtures used by witnesses and counterexamples -/

/-- An empty `feedback` table. -/
def emptyStore : Store := { rows := [], nextId := 1 }

/-- A stored row named "abc" with an in-range rating. -/
def rowA : Feedback :=
  { id := 1, name := "abc", email := "a@b.c", feedback_type := "general",
    subject_course := none, overall_rating := 3, detailed_feedback := none,
    submission_date := 10 }

/-- A one-row store holding `rowA`. -/
def storeA : Store := { rows := [rowA], nextId := 2 }

/-- A stored row named "ac", exhibiting the LIKE escape divergence: the
pattern `%a\c%` matches it although `a\c` is not a substring of any field. -/
def rowAC : Feedback :=
  { id := 1, name := "ac", email := "e@e", feedback_type := "general",
    subject_course := none, overall_rating := 3, detailed_feedback := none,
    submission_date := 10 }

/-- A one-row store holding `rowAC`. -/
def storeAC : Store := { rows := [rowAC], nextId := 2 }

/-- A fully valid submit body. -/
def bodyA : ReqBody :=
  { name := some "Al", email := some "al@b.c", feedback_type := some "general",
    subject_course := none, overall_rating := some 4, detailed_feedback := none }

/-- A submit body whose required `name` is present but empty. -/
def bodyEmptyName : ReqBody := { bodyA with name := some "" }

/-- A valid submit body whose optional `detailed_feedback` is the empty
string. -/
def bodyEmptyDetail : ReqBody := { bodyA with detailed_feedback := some "" }

/-- An update body carrying an out-of-range rating. -/
def updateBody6 : UpdateBody :=
  { name := "abc", email := "a@b.c", feedback_type := "general",
    subject_course := none, overall_rating := 6, detailed_feedback := none }

/-- A token validator accepting exactly the token "tok" (a stand-in for
`jwt.verify` against the configured secret). -/
def vTok : String → Bool := fun t => t == "tok"

/-- The row generated by submitting `bodyEmptyDetail` to `emptyStore` at
time 100. -/
def rowEmptyDetail : Feedback :=
  { id := 1, name := "Al", email := "al@b.c", feedback_type := "general",
    subject_course := none, overall_rating := 4, detailed_feedback := none,
    submission_date := 100 }

/-! ### Helper lemmas -/

/-- The submit handler's combined truthiness check fails exactly when some
required field is falsy. -/
theorem requiredCheck_false_iff (b : ReqBody) :
    (truthyStr b.name && truthyStr b.email && truthyStr b.feedback_type &&
      truthyInt b.overall_rating) = false ↔ fieldFalsy b := by
  unfold fieldFalsy
  cases h1 : truthyStr b.name <;> cases h2 : truthyStr b.email <;>
    cases h3 : truthyStr b.feedback_type <;> cases h4 : truthyInt b.overall_rating <;>
    simp

/-- On a request passing both validation checks, submit appends exactly the
row the `INSERT` describes and returns the generated id. -/
theorem submitFeedback_valid_eq (b : ReqBody) (now : Nat) (st : Store)
    (hc : (truthyStr b.name && truthyStr b.email && truthyStr b.feedback_type &&
      truthyInt b.overall_rating) = true)
    (hrange : ¬(b.overall_rating.getD 0 < 1 ∨ b.overall_rating.getD 0 > 5)) :
    submitFeedback b now st =
      (.created st.nextId,
        { rows := st.rows ++
            [{ id := st.nextId
               name := b.name.getD ""
               email := b.email.getD ""
               feedback_type := b.feedback_type.getD ""
               subject_course := if truthyStr b.subject_course then b.subject_course else none
               overall_rating := b.overall_rating.getD 0
               detailed_feedback :=
                 if truthyStr b.detailed_feedback then b.detailed_feedback else none
               submission_date := now }]
          nextId := st.nextId + 1 }) := by
  unfold submitFeedback
  simp [hc, hrange]

/-- The `x || null` normalization of an optional string field, in the
specification's phrasing: absent or empty becomes `NULL`. -/
theorem truthyStr_ite_eq (o : Option String) :
    (if truthyStr o then o else none) =
      (match o with
       | none => none
       | some s => if s = "" then none else some s) := by
  cases o with
  | none => rfl
  | some s =>
    by_cases h : s = "" <;> simp [truthyStr, h]

/-! ### C9 -/

/-- C9: submit classifies every falsy required field as missing — a request
with `overall_rating = 0`, or with `name`/`email`/`feedback_type` equal to
the empty string, is rejected with the `'Missing required fields'` error
(never the out-of-range rating error), and the store is unchanged. -/
theorem c9_falsy_required_fields_missing_error (b : ReqBody) (now : Nat) (st : Store)
    (h : b.overall_rating = some 0 ∨ b.name = some "" ∨ b.email = some "" ∨
      b.feedback_type = some "") :
    submitFeedback b now st = (.missingFields, st) := by
  have hc : (truthyStr b.name && truthyStr b.email && truthyStr b.feedback_type &&
      truthyInt b.overall_rating) = false := by
    rcases h with h | h | h | h <;> simp [h, truthyStr, truthyInt]
  unfold submitFeedback
  simp [hc]

/-- Witness for C9 at a concrete request: `overall_rating = 0` with all
other fields valid yields the missing-fields error. -/
theorem c9_falsy_required_fields_missing_error_witness :
    submitFeedback { bodyA with overall_rating := some 0 } 100 emptyStore =
      (.missingFields, emptyStore) :=
  c9_falsy_required_fields_missing_error _ 100 emptyStore (Or.inl rfl)

/-! ### C10 -/

/-- C10: on a successful submit, the optional fields `subject_course` and
`detailed_feedback` are persisted as `NULL` whenever they are absent or
falsy — in particular an empty string is stored as `NULL`. -/
theorem c10_falsy_optionals_stored_null (b : ReqBody) (now : Nat) (st : Store)
    (hname : truthyStr b.name = true) (hemail : truthyStr b.email = true)
    (htype : truthyStr b.feedback_type = true)
    (hrating : truthyInt b.overall_rating = true)
    (hlo : 1 ≤ b.overall_rating.getD 0) (hhi : b.overall_rating.getD 0 ≤ 5) :
    ∃ row, (submitFeedback b now st).2.rows = st.rows ++ [row] ∧
      row.subject_course = (match b.subject_course with
        | none => none
        | some s => if s = "" then none else some s) ∧
      row.detailed_feedback = (match b.detailed_feedback with
        | none => none
        | some s => if s = "" then none else some s) := by
  have hrange : ¬(b.overall_rating.getD 0 < 1 ∨ b.overall_rating.getD 0 > 5) := by omega
  rw [submitFeedback_valid_eq b now st (by simp [hname, hemail, htype, hrating]) hrange]
  exact ⟨_, rfl, truthyStr_ite_eq _, truthyStr_ite_eq _⟩

/-- Witness for C10: submitting with `detailed_feedback = ""` stores
`NULL` for it. -/
theorem c10_falsy_optionals_stored_null_witness :
    ∃ row, (submitFeedback bodyEmptyDetail 100 emptyStore).2.rows =
        emptyStore.rows ++ [row] ∧
      row.subject_course = (match bodyEmptyDetail.subject_course with
        | none => none
        | some s => if s = "" then none else some s) ∧
      row.detailed_feedback = (match bodyEmptyDetail.detailed_feedback with
        | none => none
        | some s => if s = "" then none else some s) :=
  c10_falsy_optionals_stored_null bodyEmptyDetail 100 emptyStore (by decide)
    (by decide) (by decide) (by decide) (by decide) (by decide)

/-! ### C1 -/

/-- Counterexample to C1 as stated: `storeA` satisfies the rating invariant,
yet a successful `PUT /api/feedback/1` carrying `overall_rating = 6` leaves a
stored row whose rating is outside `[1,5]` — the update handler performs no
validation. -/
theorem c1_update_breaks_rating_invariant :
    storeRatingsOk storeA ∧
      (updateFeedback 1 updateBody6 storeA).1 = .updated ∧
      ¬ storeRatingsOk (updateFeedback 1 updateBody6 storeA).2 := by
  decide

/-- C1 as amended: the rating invariant is preserved by submit (the only
mutating operation that validates) — any store satisfying it still satisfies
it after any `POST /api/feedback`. -/
theorem c1_rating_invariant_submit_only (b : ReqBody) (now : Nat) (st : Store)
    (h : storeRatingsOk st) : storeRatingsOk (submitFeedback b now st).2 := by
  unfold submitFeedback
  split
  · exact h
  · split
    · next hrange =>
      intro f hf
      exact h f hf
    · next hrange =>
      intro f hf
      simp only [List.mem_append, List.mem_singleton] at hf
      rcases hf with hf | rfl
      · exact h f hf
      · simp only [Bool.or_eq_true, decide_eq_true_eq, not_or] at hrange
        exact ⟨by dsimp only; omega, by dsimp only; omega⟩

/-- Witness for C1 (amended): submitting a valid body into the empty store
yields a store satisfying the rating invariant. -/
theorem c1_rating_invariant_submit_only_witness :
    storeRatingsOk (submitFeedback bodyA 100 emptyStore).2 :=
  c1_rating_invariant_submit_only bodyA 100 emptyStore (by decide)

/-! ### C2 -/

/-- Counterexample to C2 as stated: a request whose `name` is present but
empty has no *missing* field and an in-range rating, so the literal claim
requires it to be persisted; the handler instead rejects it (truthiness). -/
theorem c2_literal_missing_fails :
    ¬ submitClaimLiteral bodyEmptyName 100 emptyStore := by
  decide

/-- C2 as amended: replacing "missing" by "falsy" (absent, empty string, or
zero). A falsy required field or an out-of-range rating fails with a
`ValidationError` and leaves the store unchanged; otherwise the record is
appended and the generated id (`st.nextId`) is returned. -/
theorem c2_submit_validation_falsy (b : ReqBody) (now : Nat) (st : Store) :
    (fieldFalsy b ∨ ratingOutside b →
      isValidationError (submitFeedback b now st).1 = true ∧
        (submitFeedback b now st).2 = st) ∧
    (¬(fieldFalsy b ∨ ratingOutside b) →
      (submitFeedback b now st).1 = .created st.nextId ∧
        ∃ row, (submitFeedback b now st).2.rows = st.rows ++ [row]) := by
  constructor
  · intro h
    unfold submitFeedback
    by_cases hc : (truthyStr b.name && truthyStr b.email && truthyStr b.feedback_type &&
        truthyInt b.overall_rating) = false
    · simp [hc, isValidationError]
    · have hff : ¬ fieldFalsy b := fun hf => hc ((requiredCheck_false_iff b).mpr hf)
      rcases h with h | h
      · exact absurd h hff
      · obtain ⟨n, hn, houtside⟩ := h
        have hrange : b.overall_rating.getD 0 < 1 ∨ b.overall_rating.getD 0 > 5 := by
          rw [hn]; simpa using houtside
        simp only [Bool.not_eq_false] at hc
        simp [hc, hrange, isValidationError]
  · intro h
    push_neg at h
    obtain ⟨hff, hro⟩ := h
    have hc : (truthyStr b.name && truthyStr b.email && truthyStr b.feedback_type &&
        truthyInt b.overall_rating) = true := by
      by_contra hc
      exact hff ((requiredCheck_false_iff b).mp (by simpa using hc))
    have hrt : truthyInt b.overall_rating = true := by
      cases h1 : truthyStr b.name <;> cases h2 : truthyStr b.email <;>
        cases h3 : truthyStr b.feedback_type <;> cases h4 : truthyInt b.overall_rating <;>
        simp_all
    obtain ⟨n, hn⟩ : ∃ n, b.overall_rating = some n := by
      cases hov : b.overall_rating with
      | none => rw [hov] at hrt; simp [truthyInt] at hrt
      | some n => exact ⟨n, rfl⟩
    have hrange : ¬(b.overall_rating.getD 0 < 1 ∨ b.overall_rating.getD 0 > 5) := by
      intro hcontra
      exact hro ⟨n, hn, by rw [hn] at hcontra; simpa using hcontra⟩
    unfold submitFeedback
    simp [hc, hrange]

/-- Witness for C2 (amended), exercising both directions at concrete
requests: the empty-name request fails with a `ValidationError` leaving the
store unchanged, and the fully valid request is persisted with id 1. -/
theorem c2_submit_validation_falsy_witness :
    (isValidationError (submitFeedback bodyEmptyName 100 emptyStore).1 = true ∧
      (submitFeedback bodyEmptyName 100 emptyStore).2 = emptyStore) ∧
    ((submitFeedback bodyA 100 emptyStore).1 = .created emptyStore.nextId ∧
      ∃ row, (submitFeedback bodyA 100 emptyStore).2.rows = emptyStore.rows ++ [row]) :=
  ⟨(c2_submit_validation_falsy bodyEmptyName 100 emptyStore).1 (Or.inl (by decide)),
   (c2_submit_validation_falsy bodyA 100 emptyStore).2 (by decide)⟩

/-! ### C4 -/

/-- C4: the search endpoint fails with its `ValidationError` exactly when `q`
is absent or the trimmed query is shorter than 2 characters (so `""` and
`"a"` fail while `"ab"` succeeds). -/
theorem c4_search_query_validation (q t : Option String) (r : Option Int) (st : Store) :
    searchFeedback q t r st = .invalidQuery ↔
      (q = none ∨ (trimString (q.getD "")).length < 2) := by
  unfold searchFeedback
  cases q with
  | none => simp [truthyStr]
  | some s =>
    by_cases hlt : (trimString s).length < 2
    · by_cases hs : s = ""
      · subst hs
        simp [truthyStr]
        decide
      · simp [truthyStr, beq_iff_eq, hs, hlt]
    · have hs : s ≠ "" := by
        intro h
        subst h
        exact hlt (by decide)
      simp [truthyStr, beq_iff_eq, hs, hlt]

/-- Witness for C4 at concrete queries: `"a"` is rejected and `"ab"` is
not. -/
theorem c4_search_query_validation_witness :
    searchFeedback (some "a") none none emptyStore = .invalidQuery ∧
      ¬ searchFeedback (some "ab") none none emptyStore = .invalidQuery :=
  ⟨(c4_search_query_validation (some "a") none none emptyStore).mpr (by decide),
   fun h => by
    have := (c4_search_query_validation (some "ab") none none emptyStore).mp h
    revert this
    decide⟩

/-! ### C6 -/

/-- C6: deletion requires authentication. A falsy bearer token yields 401
and leaves the store unchanged; a token rejected by the verifier yields 403
unchanged; a valid token with an unknown id yields 404 unchanged; a valid
token with an existing id deletes exactly the rows with that id and reports
success. No deletion occurs without a valid token. -/
theorem c6_delete_auth_spec (authHeader : Option String) (verify : String → Bool)
    (id : Nat) (st : Store) :
    ((extractToken authHeader = none ∨ extractToken authHeader = some "") →
      deleteFeedback authHeader verify id st = (.unauthorized, st)) ∧
    (∀ tok, extractToken authHeader = some tok → tok ≠ "" → verify tok = false →
      deleteFeedback authHeader verify id st = (.forbidden, st)) ∧
    (∀ tok, extractToken authHeader = some tok → tok ≠ "" → verify tok = true →
      (∀ f ∈ st.rows, f.id ≠ id) →
      deleteFeedback authHeader verify id st = (.notFound, st)) ∧
    (∀ tok, extractToken authHeader = some tok → tok ≠ "" → verify tok = true →
      (∃ f ∈ st.rows, f.id = id) →
      deleteFeedback authHeader verify id st =
        (.deleted, { st with rows := st.rows.filter (fun f => !(f.id == id)) })) ∧
    ((¬ ∃ tok, extractToken authHeader = some tok ∧ tok ≠ "" ∧ verify tok = true) →
      (deleteFeedback authHeader verify id st).2 = st) := by
  refine ⟨?_, ?_, ?_, ?_, ?_⟩
  · rintro (h | h) <;> simp [deleteFeedback, h]
  · intro tok htok hne hbad
    simp [deleteFeedback, htok, beq_iff_eq, hne, hbad]
  · intro tok htok hne hok habsent
    have hnil : st.rows.filter (fun f => f.id == id) = [] :=
      List.filter_eq_nil_iff.mpr (fun a ha => by simpa using habsent a ha)
    simp [deleteFeedback, htok, beq_iff_eq, hne, hok, hnil]
  · intro tok htok hne hok hpresent
    obtain ⟨f, hf, hfid⟩ := hpresent
    have hmem : f ∈ st.rows.filter (fun f => f.id == id) :=
      List.mem_filter.mpr ⟨hf, by simp [hfid]⟩
    have hnenil : (st.rows.filter (fun f => f.id == id)).length ≠ 0 := by
      intro hc
      rw [List.length_eq_zero] at hc
      simp [hc] at hmem
    simp [deleteFeedback, htok, beq_iff_eq, hne, hok, hnenil]
  · intro hno
    unfold deleteFeedback
    cases htok : extractToken authHeader with
    | none => rfl
    | some tok =>
      by_cases hne : tok = ""
      · simp [beq_iff_eq, hne]
      · have hbad : verify tok = false := by
          cases hv : verify tok with
          | false => rfl
          | true => exact absurd ⟨tok, htok, hne, hv⟩ hno
        simp [beq_iff_eq, hne, hbad]

/-- Witness for C6 at concrete requests against `storeA` with the validator
`vTok`: all four branch behaviours. -/
theorem c6_delete_auth_spec_witness :
    deleteFeedback none vTok 1 storeA = (.unauthorized, storeA) ∧
    deleteFeedback (some "Bearer bad") vTok 1 storeA = (.forbidden, storeA) ∧
    deleteFeedback (some "Bearer tok") vTok 2 storeA = (.notFound, storeA) ∧
    deleteFeedback (some "Bearer tok") vTok 1 storeA =
      (.deleted, { storeA with rows := storeA.rows.filter (fun f => !(f.id == 1)) }) :=
  ⟨(c6_delete_auth_spec none vTok 1 storeA).1 (Or.inl (by decide)),
   (c6_delete_auth_spec (some "Bearer bad") vTok 1 storeA).2.1 "bad" (by decide)
     (by decide) (by decide),
   (c6_delete_auth_spec (some "Bearer tok") vTok 2 storeA).2.2.1 "tok" (by decide)
     (by decide) (by decide) (by decide),
   (c6_delete_auth_spec (some "Bearer tok") vTok 1 storeA).2.2.2.1 "tok" (by decide)
     (by decide) (by decide) ⟨rowA, by decide, by decide⟩⟩

/-! ### C3 -/

/-- C3: the list endpoint's page contains only rows satisfying the
conjunction of the optional type and rating filters, in descending
`submission_date` order, with at most `limit` rows; `total` counts all
matching rows (independently of `limit`/`offset`), so the page size never
exceeds `total`; when `offset = 0` and `total ≤ limit` every matching row is
on the page; and absent `limit`/`offset` parameters default to 50 and 0. -/
theorem c3_list_pagination_spec (t : Option String) (r : Option Int)
    (limit offset : Nat) (st : Store) :
    (∀ f ∈ (listFeedback t r limit offset st).feedback,
        (typeCond t f && ratingCond r f) = true) ∧
    List.Sorted dateDesc (listFeedback t r limit offset st).feedback ∧
    (listFeedback t r limit offset st).feedback.length ≤ limit ∧
    (listFeedback t r limit offset st).total =
      (st.rows.filter (fun f => typeCond t f && ratingCond r f)).length ∧
    (listFeedback t r limit offset st).feedback.length ≤
      (listFeedback t r limit offset st).total ∧
    (offset = 0 → (listFeedback t r limit offset st).total ≤ limit →
      ∀ f ∈ st.rows, (typeCond t f && ratingCond r f) = true →
        f ∈ (listFeedback t r limit offset st).feedback) ∧
    listHandler t r none none st = listFeedback t r 50 0 st := by
  have hpage : (listFeedback t r limit offset st).feedback =
      ((List.insertionSort dateDesc
        (st.rows.filter (fun f => typeCond t f && ratingCond r f))).drop offset).take limit :=
    rfl
  have htotal : (listFeedback t r limit offset st).total =
      (st.rows.filter (fun f => typeCond t f && ratingCond r f)).length := rfl
  have hsub : List.Sublist (listFeedback t r limit offset st).feedback
      (List.insertionSort dateDesc
        (st.rows.filter (fun f => typeCond t f && ratingCond r f))) := by
    rw [hpage]
    exact (List.take_sublist _ _).trans (List.drop_sublist _ _)
  have hperm : List.Perm
      (List.insertionSort dateDesc
        (st.rows.filter (fun f => typeCond t f && ratingCond r f)))
      (st.rows.filter (fun f => typeCond t f && ratingCond r f)) :=
    List.perm_insertionSort dateDesc _
  refine ⟨?_, ?_, ?_, htotal, ?_, ?_, rfl⟩
  · intro f hf
    have hmem : f ∈ st.rows.filter (fun f => typeCond t f && ratingCond r f) :=
      hperm.mem_iff.mp (hsub.subset hf)
    exact (List.mem_filter.mp hmem).2
  · exact (List.sorted_insertionSort dateDesc _).sublist hsub
  · rw [hpage]
    exact List.length_take_le _ _
  · rw [htotal, ← hperm.length_eq]
    exact hsub.length_le
  · intro h0 hle f hf hpred
    subst h0
    rw [htotal] at hle
    rw [hpage, List.drop_zero, List.take_of_length_le (by rw [hperm.length_eq]; exact hle)]
    exact hperm.mem_iff.mpr (List.mem_filter.mpr ⟨hf, hpred⟩)

/-- Witness for C3 at a concrete call: listing `storeA` unfiltered with the
defaults; the page-exhaustiveness branch is exercised. -/
theorem c3_list_pagination_spec_witness :
    (listFeedback none none 50 0 storeA).total =
      (storeA.rows.filter (fun f => typeCond none f && ratingCond none f)).length ∧
    rowA ∈ (listFeedback none none 50 0 storeA).feedback :=
  ⟨(c3_list_pagination_spec none none 50 0 storeA).2.2.2.1,
   (c3_list_pagination_spec none none 50 0 storeA).2.2.2.2.2.1 rfl (by decide)
     rowA (by decide) (by decide)⟩

/-! ### C5: LIKE semantics vs substring semantics -/

/-- The empty pattern is a prefix of the empty string only. -/
theorem isPrefixCI_nil_right (ps : List Char) : isPrefixCI ps [] = ps.isEmpty := by
  cases ps <;> rfl

/-- A trailing `%` matches any string: some suffix (the empty one) satisfies
the empty rest-pattern. -/
theorem tails_any_isEmpty (s : List Char) :
    (s.tails.any (fun t => t.isEmpty)) = true := by
  induction s with
  | nil => rfl
  | cons c t ih => simp [List.tails_cons, ih]

/-- A pattern free of wildcards and of the escape character, followed by `%`,
matches a string exactly when the pattern is a case-insensitive prefix of
it. -/
theorem likeMatch_append_percent (ps : List Char)
    (hp : ps.all (fun c => !(c == '%') && !(c == '_') && !(c == '\\')) = true) :
    ∀ s : List Char, likeMatch (ps ++ ['%']) s = isPrefixCI ps s := by
  induction ps with
  | nil =>
    intro s
    rw [List.nil_append, likeMatch.eq_def]
    have heq : ∀ t : List Char, likeMatch [] t = t.isEmpty := fun t => by
      rw [likeMatch.eq_def]
    simp [heq, tails_any_isEmpty s, isPrefixCI]
  | cons p ps ih =>
    intro s
    simp only [List.all_cons, Bool.and_eq_true, Bool.not_eq_true'] at hp
    obtain ⟨⟨⟨hp1, hp2⟩, hp3⟩, hps⟩ := hp
    have hall : ps.all (fun c => !(c == '%') && !(c == '_') && !(c == '\\')) = true := by
      simp only [List.all_eq_true, Bool.and_eq_true, Bool.not_eq_true']
      intro c hc
      have := List.all_eq_true.mp hps c hc
      simpa using this
    cases s with
    | nil =>
      rw [List.cons_append, likeMatch.eq_def]
      simp [hp1, hp2, hp3, isPrefixCI_nil_right]
    | cons c t =>
      rw [List.cons_append, likeMatch.eq_def]
      simp [hp1, hp2, hp3, isPrefixCI, ih hall t]

/-- A pattern free of wildcards and of the escape character, wrapped in
`%...%`, LIKE-matches a string exactly when it is a case-insensitive
substring of it. -/
theorem likeMatch_wrapped_eq_containsCI (ps : List Char)
    (hp : ps.all (fun c => !(c == '%') && !(c == '_') && !(c == '\\')) = true) :
    ∀ s : List Char, likeMatch ('%' :: (ps ++ ['%'])) s = containsCI ps s := by
  have hany : ∀ u : List Char, likeMatch ('%' :: (ps ++ ['%'])) u =
      u.tails.any (fun x => likeMatch (ps ++ ['%']) x) := by
    intro u
    rw [likeMatch.eq_def]
    simp
  intro s
  induction s with
  | nil =>
    rw [hany, show List.tails ([] : List Char) = [[]] from rfl]
    simp only [List.any_cons, List.any_nil, Bool.or_false]
    rw [likeMatch_append_percent ps hp, isPrefixCI_nil_right]
    rfl
  | cons c t ih =>
    rw [hany, List.tails_cons]
    simp only [List.any_cons]
    rw [← hany t, ih, likeMatch_append_percent ps hp]
    rfl

/-- On a trimmed query free of LIKE wildcards and the escape character, the
handler's LIKE-based row predicate coincides with the specification's
substring predicate. -/
theorem searchMatch_eq_spec (term : String) (hterm : noWildcards term = true)
    (t : Option String) (r : Option Int) (f : Feedback) :
    searchMatch term t r f = specSearchMatch term t r f := by
  have hpat : ("%" ++ term ++ "%").toList = '%' :: (term.toList ++ ['%']) := by
    simp [String.toList]
  have hlike := likeMatch_wrapped_eq_containsCI term.data
    (by simpa [noWildcards, String.toList] using hterm)
  unfold searchMatch specSearchMatch likeOpt
  rw [hpat]
  cases f.detailed_feedback <;> cases f.subject_course <;> simp [hlike]

/-- Counterexample to C5 as stated: the SQL `LIKE` pattern treats `_` in the
query as a single-character wildcard and `\` as the escape character, so
searching for `"a_c"` returns the row named `"abc"` and searching for
`"a\c"` returns the row named `"ac"` (the escape is stripped), even though
neither store has a row containing the query as a substring — the result set
is not the set of substring matches. -/
theorem c5_wildcard_query_breaks_substring_spec :
    (searchFeedback (some "a_c") none none storeA = .results [rowA] ∧
      storeA.rows.filter (specSearchMatch (trimString "a_c") none none) = []) ∧
    (searchFeedback (some "a\\c") none none storeAC = .results [rowAC] ∧
      storeAC.rows.filter (specSearchMatch (trimString "a\\c") none none) = []) := by
  decide

/-- C5 as amended: for a valid query whose trimmed form is free of the LIKE
metacharacters — the wildcards `%` and `_` and the escape character `\` —
the result rows are exactly the rows matching the specification's
case-insensitive substring predicate (over the three text fields, with the
optional filters), newest first, capped at 50: every result matches, results
are sorted descending, at most 50 are returned, and when at most 50 rows
match, every matching row is returned. -/
theorem c5_search_results_spec (qs : String) (t : Option String) (r : Option Int)
    (st : Store) (hlen : 2 ≤ (trimString qs).length)
    (hmeta : noWildcards (trimString qs) = true) :
    ∃ rs, searchFeedback (some qs) t r st = .results rs ∧
      (∀ f ∈ rs, specSearchMatch (trimString qs) t r f = true) ∧
      List.Sorted dateDesc rs ∧
      rs.length ≤ 50 ∧
      ((st.rows.filter (specSearchMatch (trimString qs) t r)).length ≤ 50 →
        ∀ f ∈ st.rows, specSearchMatch (trimString qs) t r f = true → f ∈ rs) := by
  have hq : qs ≠ "" := by
    intro h
    subst h
    exact absurd hlen (by decide)
  have hnotlt : ¬((trimString qs).length < 2) := by omega
  have hfilter : st.rows.filter (searchMatch (trimString qs) t r) =
      st.rows.filter (specSearchMatch (trimString qs) t r) :=
    List.filter_congr (fun f _ => searchMatch_eq_spec _ hmeta t r f)
  have hperm : List.Perm
      (List.insertionSort dateDesc (st.rows.filter (searchMatch (trimString qs) t r)))
      (st.rows.filter (searchMatch (trimString qs) t r)) :=
    List.perm_insertionSort dateDesc _
  refine ⟨(List.insertionSort dateDesc
      (st.rows.filter (searchMatch (trimString qs) t r))).take 50, ?_, ?_, ?_, ?_, ?_⟩
  · unfold searchFeedback
    simp [truthyStr, beq_iff_eq, hq, hnotlt]
  · intro f hf
    have hmem : f ∈ st.rows.filter (searchMatch (trimString qs) t r) :=
      hperm.mem_iff.mp ((List.take_sublist _ _).subset hf)
    rw [hfilter] at hmem
    exact (List.mem_filter.mp hmem).2
  · exact (List.sorted_insertionSort dateDesc _).sublist (List.take_sublist _ _)
  · exact List.length_take_le _ _
  · intro hle f hf hspec
    have hlen50 : (List.insertionSort dateDesc
        (st.rows.filter (searchMatch (trimString qs) t r))).length ≤ 50 := by
      rw [hperm.length_eq, hfilter]
      exact hle
    rw [List.take_of_length_le hlen50]
    exact hperm.mem_iff.mpr (by rw [hfilter]; exact List.mem_filter.mpr ⟨hf, hspec⟩)

/-- Witness for C5 (amended) at the wildcard-free query `"ab"` against
`storeA` (whose single row is named `"abc"`). -/
theorem c5_search_results_spec_witness :
    ∃ rs, searchFeedback (some "ab") none none storeA = .results rs ∧
      (∀ f ∈ rs, specSearchMatch (trimString "ab") none none f = true) ∧
      List.Sorted dateDesc rs ∧
      rs.length ≤ 50 ∧
      ((storeA.rows.filter (specSearchMatch (trimString "ab") none none)).length ≤ 50 →
        ∀ f ∈ storeA.rows, specSearchMatch (trimString "ab") none none f = true →
          f ∈ rs) :=
  c5_search_results_spec "ab" none none storeA (by decide) (by decide)

/-! ### C7 -/

/-- `toFixed(1)` applied to the `||`-coalesced zero renders `"0.0"`. -/
theorem toFixed1_zero : toFixed1 0 = "0.0" := by
  simp only [toFixed1]
  rw [show (0:ℚ) * 10 + 1 / 2 = 1 / 2 by norm_num]
  rw [show ⌊(1:ℚ) / 2⌋ = 0 by
    rw [Int.floor_eq_zero_iff, Set.mem_Ico]
    constructor <;> norm_num]
  decide

/-- C7: the analytics `average_rating` is the string `"0.0"` when the
feedback table is empty, and otherwise the mean of all `overall_rating`
values rounded to one decimal place. -/
theorem c7_average_rating_spec (st : Store) :
    analyticsAverageRating st = specAverageRating st := by
  unfold analyticsAverageRating specAverageRating avgRating
  by_cases h : st.rows.isEmpty
  · have hnil : st.rows = [] := List.isEmpty_iff.mp h
    simp [h, hnil, toFixed1_zero]
  · have hlen : ¬ st.rows.length = 0 := by
      intro hc
      exact h (by simp [List.length_eq_zero.mp hc])
    simp [h, hlen]

/-! ### C8 -/

/-- Counterexample to C8 as stated: a valid submission carrying
`detailed_feedback = ""` succeeds, but `getById` returns the row with
`detailed_feedback = NULL` — not a record with identical submitted fields. -/
theorem c8_empty_optional_not_identical :
    (submitFeedback bodyEmptyDetail 100 emptyStore).1 = .created 1 ∧
      getById 1 (submitFeedback bodyEmptyDetail 100 emptyStore).2 =
        .found rowEmptyDetail ∧
      rowEmptyDetail.detailed_feedback = none ∧
      bodyEmptyDetail.detailed_feedback = some "" := by
  decide

/-- C8 as amended: submitting a valid record into a store whose rows do not
already use the generated id returns that id, and `getById` on it yields the
submitted required fields unchanged, the optional fields normalized by
falsiness to `NULL`, the generated id and the creation timestamp; and
`getById` on any id matching no row fails with `NotFound`. -/
theorem c8_submit_getById_roundtrip :
    (∀ (b : ReqBody) (now : Nat) (st : Store),
      (∀ f ∈ st.rows, f.id ≠ st.nextId) →
      truthyStr b.name = true → truthyStr b.email = true →
      truthyStr b.feedback_type = true → truthyInt b.overall_rating = true →
      1 ≤ b.overall_rating.getD 0 → b.overall_rating.getD 0 ≤ 5 →
      (submitFeedback b now st).1 = .created st.nextId ∧
        getById st.nextId (submitFeedback b now st).2 =
          .found
            { id := st.nextId
              name := b.name.getD ""
              email := b.email.getD ""
              feedback_type := b.feedback_type.getD ""
              subject_course := if truthyStr b.subject_course then b.subject_course else none
              overall_rating := b.overall_rating.getD 0
              detailed_feedback :=
                if truthyStr b.detailed_feedback then b.detailed_feedback else none
              submission_date := now }) ∧
    (∀ (i : Nat) (st : Store), (∀ f ∈ st.rows, f.id ≠ i) →
      getById i st = .notFound) := by
  constructor
  · intro b now st hfresh hname hemail htype hrating hlo hhi
    have hrange : ¬(b.overall_rating.getD 0 < 1 ∨ b.overall_rating.getD 0 > 5) := by
      omega
    rw [submitFeedback_valid_eq b now st (by simp [hname, hemail, htype, hrating]) hrange]
    refine ⟨rfl, ?_⟩
    unfold getById
    have hnil : st.rows.filter (fun f => f.id == st.nextId) = [] :=
      List.filter_eq_nil_iff.mpr (fun a ha => by simpa using hfresh a ha)
    simp [List.filter_append, hnil]
  · intro i st habsent
    unfold getById
    have hnil : st.rows.filter (fun f => f.id == i) = [] :=
      List.filter_eq_nil_iff.mpr (fun a ha => by simpa using habsent a ha)
    simp [hnil]

/-- Witness for C8 (amended): submitting `bodyA` into the empty store and
reading id 1 back, and a `NotFound` for the unknown id 7. -/
theorem c8_submit_getById_roundtrip_witness :
    ((submitFeedback bodyA 100 emptyStore).1 = .created emptyStore.nextId ∧
      getById emptyStore.nextId (submitFeedback bodyA 100 emptyStore).2 =
        .found
          { id := emptyStore.nextId
            name := bodyA.name.getD ""
            email := bodyA.email.getD ""
            feedback_type := bodyA.feedback_type.getD ""
            subject_course :=
              if truthyStr bodyA.subject_course then bodyA.subject_course else none
            overall_rating := bodyA.overall_rating.getD 0
            detailed_feedback :=
              if truthyStr bodyA.detailed_feedback then bodyA.detailed_feedback else none
            submission_date := 100 }) ∧
    getById 7 emptyStore = .notFound :=
  ⟨c8_submit_getById_roundtrip.1 bodyA 100 emptyStore (by decide) (by decide)
      (by decide) (by decide) (by decide) (by decide) (by decide),
   c8_submit_getById_roundtrip.2 7 emptyStore (by decide)⟩

end FeedbackSystem
